import Mathlib

/-!
Verification of the two lambda handlers in aws-financial-data-discovery-samples:
the Macie classification tagger (src/eventbridge-macie/lambda_handler.py) and
the S3 notification configurator (src/s3-events/lambda_handler.py).

The Python code is shallowly embedded: JSON values become an inductive type,
dictionary access, truthiness and int() coercion follow Python semantics in an
exception monad, and every outbound S3 API call and every emitted metric is
recorded in an explicit effect trace.  Outcomes of the external S3 calls are
supplied by an environment, distinguishing a service ClientError (the only
exception class the tagger catches on mutation calls) from any other exception.
-/

/-- A JSON value as produced by json.loads: dicts, lists, strings, integers,
booleans and null.  Numbers are restricted to integers, which covers the
severity scores this code consumes. -/
inductive Json where
  | null : Json
  | bool (b : Bool) : Json
  | num (n : Int) : Json
  | str (s : String) : Json
  | arr (xs : List Json) : Json
  | obj (fields : List (String × Json)) : Json

/-- Python exceptions that the embedded code can raise or catch. -/
inductive PyErr where
  | keyError (k : String) : PyErr
  | attributeError : PyErr
  | typeError : PyErr
  | valueError : PyErr
  | clientError : PyErr
  | otherError : PyErr
deriving Repr, DecidableEq

/-- Outcome of a single outbound S3 API call, chosen by the environment:
success, a botocore ClientError, or any other exception type
(for example a connection error or parameter validation error). -/
inductive CallOutcome where
  | ok : CallOutcome
  | clientError : CallOutcome
  | otherError : CallOutcome
deriving Repr, DecidableEq

namespace Json

/-- Python truthiness of a JSON value: None, False, 0, empty string, empty
list and empty dict are falsy. -/
def truthy : Json → Bool
  | .null => false
  | .bool b => b
  | .num n => n != 0
  | .str s => !(s == "")
  | .arr xs => !xs.isEmpty
  | .obj fs => !fs.isEmpty

/-- Embeds d.get(k, dflt): on a dict, the value under k or the default;
on any non-dict value the attribute lookup of .get raises. -/
def getD (j : Json) (k : String) (dflt : Json) : Except PyErr Json :=
  match j with
  | .obj fs => .ok ((fs.lookup k).getD dflt)
  | _ => .error .attributeError

/-- Embeds d.get(k): on a dict, the value under k or None (modelled as
Option.none); on any non-dict value the attribute lookup raises. -/
def getOpt (j : Json) (k : String) : Except PyErr (Option Json) :=
  match j with
  | .obj fs => .ok (fs.lookup k)
  | _ => .error .attributeError

/-- Embeds d[k]: KeyError when the key is missing, TypeError when the
value is not a dict. -/
def getItem (j : Json) (k : String) : Except PyErr Json :=
  match j with
  | .obj fs =>
    match fs.lookup k with
    | some v => .ok v
    | none => .error (.keyError k)
  | _ => .error .typeError

end Json

/-- Python truthiness of an optional value: None is falsy. -/
def optTruthy : Option Json → Bool
  | none => false
  | some j => j.truthy

/-- Parses the digits of a decimal integer literal. -/
def digitsVal : List Char → Option Nat
  | [] => none
  | cs => cs.foldlM (fun acc c => if c.isDigit then some (acc * 10 + (c.toNat - 48)) else none) 0

/-- Parses a Python integer literal string: optional sign then digits. -/
def parseIntStr (s : String) : Option Int :=
  match s.data with
  | '-' :: rest => (digitsVal rest).map (fun n => -(n : Int))
  | '+' :: rest => (digitsVal rest).map (fun n => (n : Int))
  | cs => (digitsVal cs).map (fun n => (n : Int))

/-- Embeds int(x) on a JSON value: integers pass through, booleans become
0 or 1, strings are parsed (ValueError on failure), everything else is a
TypeError. -/
def pyInt (j : Json) : Except PyErr Int :=
  match j with
  | .num n => .ok n
  | .bool b => .ok (if b then 1 else 0)
  | .str s =>
    match parseIntStr s with
    | some n => .ok n
    | none => .error .valueError
  | _ => .error .typeError

mutual

/-- Embeds Python repr of a JSON value. -/
def pyRepr : Json → String
  | .null => "None"
  | .bool b => if b then "True" else "False"
  | .num n => toString n
  | .str s => "\x27" ++ s ++ "\x27"
  | .arr xs => "[" ++ pyReprList xs ++ "]"
  | .obj fs => "\x7b" ++ pyReprFields fs ++ "\x7d"

/-- Comma-separated reprs of list elements. -/
def pyReprList : List Json → String
  | [] => ""
  | [j] => pyRepr j
  | j :: rest => pyRepr j ++ ", " ++ pyReprList rest

/-- Comma-separated reprs of dict entries. -/
def pyReprFields : List (String × Json) → String
  | [] => ""
  | [(k, v)] => "\x27" ++ k ++ "\x27: " ++ pyRepr v
  | (k, v) :: rest => "\x27" ++ k ++ "\x27: " ++ pyRepr v ++ ", " ++ pyReprFields rest

end

/-- Embeds str(x) on a JSON value: strings pass through unquoted, other
values render as their repr. -/
def pyStr (j : Json) : String :=
  match j with
  | .str s => s
  | j => pyRepr j

/-- Hexadecimal digit value of a character, if any. -/
def hexVal (c : Char) : Option Nat :=
  if '0' ≤ c ∧ c ≤ '9' then some (c.toNat - 48)
  else if 'a' ≤ c ∧ c ≤ 'f' then some (c.toNat - 87)
  else if 'A' ≤ c ∧ c ≤ 'F' then some (c.toNat - 55)
  else none

/-- Character-level loop of urllib.parse.unquote_plus: a plus becomes a
space, a percent followed by two hex digits becomes the encoded character,
anything else passes through. -/
def unquotePlusAux : List Char → List Char
  | [] => []
  | '+' :: rest => ' ' :: unquotePlusAux rest
  | '%' :: a :: b :: rest =>
    match hexVal a, hexVal b with
    | some x, some y => Char.ofNat (16 * x + y) :: unquotePlusAux rest
    | _, _ => '%' :: unquotePlusAux (a :: b :: rest)
  | c :: rest => c :: unquotePlusAux rest

/-- Embeds urllib.parse.unquote_plus on a string. -/
def unquote_plus (s : String) : String := ⟨unquotePlusAux s.data⟩

/-- The environment-derived configuration of the tagger, with the
defaults from the module top: TAG_KEY_NAME, SCORE_THRESHOLD,
GLACIER_TRANSITION_DAYS, EXPIRE_OBJECTS_DAYS. -/
structure Config where
  tagKeyName : String
  scoreThreshold : Int
  glacierTransitionDays : Int
  expireObjectsDays : Int

/-- The default configuration when no environment variables are set. -/
def defaultConfig : Config :=
  { tagKeyName := "Severity"
    scoreThreshold := 3
    glacierTransitionDays := 365
    expireObjectsDays := 1825 }

/-- One observable effect of a record being processed: an outbound S3
call with the parameters it was given, or a count metric emission.
The version argument of a call is Option.none when it was omitted from
the parameters. -/
inductive Effect where
  | getObjectCall (bucket key version : Option Json) : Effect
  | tagPutCall (bucket key : Json) (version : Option Json)
      (tagKey tagValue : String) : Effect
  | lifecyclePutCall (bucket filterKey : Json)
      (glacierDays expireDays : Int) : Effect
  | putNotificationCall (bucket notifConfig : Json) : Effect
  | metric (name : String) : Effect

/-- The external world for one record: the outcome of the report fetch
(the whole get, read, decode, json.loads chain) and the outcomes of the
two mutation calls. -/
structure Env where
  fetch : Except Unit Json
  tagOutcome : CallOutcome
  lifecycleOutcome : CallOutcome

/-- Embeds the parameter pattern if version_id: params["VersionId"] = version_id:
the version is included only when truthy. -/
def inclVersion (v : Option Json) : Option Json :=
  match v with
  | some j => if j.truthy then some j else none
  | none => none

/-- Embeds get_json_object: issues the get-object call and returns the
parsed JSON document, or None when any exception occurred (the bare
except swallows everything). -/
def get_json_object (bucket key version : Option Json) (fetch : Except Unit Json) :
    Option Json × List Effect :=
  let call := Effect.getObjectCall bucket key (inclVersion version)
  match fetch with
  | .ok j => (some j, [call])
  | .error _ => (none, [call])

/-- Embeds tag_object: issues the put-object-tagging call with the
configured tag key and str(value); a ClientError is caught and counted
as TaggingFailed, success is counted as TaggingSuccess, and any other
exception propagates. -/
def tag_object (cfg : Config) (value : Json) (bucket key : Json)
    (version : Option Json) (outcome : CallOutcome) :
    Except PyErr Unit × List Effect :=
  let call := Effect.tagPutCall bucket key (inclVersion version)
    cfg.tagKeyName (pyStr value)
  match outcome with
  | .ok => (.ok (), [call, .metric "TaggingSuccess"])
  | .clientError => (.ok (), [call, .metric "TaggingFailed"])
  | .otherError => (.error .otherError, [call])

/-- Embeds lifecycle_config: issues the put-bucket-lifecycle call whose
single rule filters on the given key as prefix, with the configured
transition and expiration day counts; a ClientError is caught and
swallowed, any other exception propagates. -/
def lifecycle_config (cfg : Config) (bucket key : Json) (outcome : CallOutcome) :
    Except PyErr Unit × List Effect :=
  let call := Effect.lifecyclePutCall bucket key
    cfg.glacierTransitionDays cfg.expireObjectsDays
  match outcome with
  | .ok => (.ok (), [call])
  | .clientError => (.ok (), [call])
  | .otherError => (.error .otherError, [call])

/-- Embeds lines 135-140 of process_record: bucket, raw key and version
are read from the record envelope with .get chains defaulting to empty
dicts, so missing fields give None rather than an error. -/
def extractLocation (record : Json) :
    Except PyErr (Option Json × Option Json × Option Json) := do
  let s3a ← record.getD "s3" (.obj [])
  let bkt ← s3a.getD "bucket" (.obj [])
  let bucket ← bkt.getOpt "name"
  let s3b ← record.getD "s3" (.obj [])
  let ob ← s3b.getD "object" (.obj [])
  let key ← ob.getOpt "key"
  let s3c ← record.getD "s3" (.obj [])
  let ob2 ← s3c.getD "object" (.obj [])
  let version ← ob2.getOpt "versionId"
  return (bucket, key, version)

/-- Embeds if key: key = urllib.parse.unquote_plus(key): a truthy key is
URL-decoded (raising on a non-string), a missing or falsy key is kept. -/
def decodeKey (key : Option Json) : Except PyErr (Option Json) :=
  match key with
  | some k =>
    if k.truthy then
      match k with
      | .str s => .ok (some (.str (unquote_plus s)))
      | _ => .error .typeError
    else .ok (some k)
  | none => .ok none

/-- Embeds severity_score = int(detail["severity"]["score"]). -/
def scoreOf (detail : Json) : Except PyErr Int := do
  let sev ← detail.getItem "severity"
  let scoreJ ← sev.getItem "score"
  pyInt scoreJ

/-- Embeds lines 148-149: the coerced severity score and the severity
description, each indexed from detail. -/
def severityOf (detail : Json) : Except PyErr (Int × Json) := do
  let score ← scoreOf detail
  let sev ← detail.getItem "severity"
  let desc ← sev.getItem "description"
  return (score, desc)

/-- Embeds lines 156-158: the affected bucket name, object key and
optional version are indexed out of resourcesAffected. -/
def affectedOf (ra : Json) : Except PyErr (Json × Json × Option Json) := do
  let sb ← ra.getItem "s3Bucket"
  let ab ← sb.getItem "name"
  let so ← ra.getItem "s3Object"
  let ak ← so.getItem "key"
  let so2 ← ra.getItem "s3Object"
  let av ← so2.getOpt "versionId"
  return (ab, ak, av)

/-- Embeds lines 147-182 of process_record, from the detail lookup on
the fetched document to the tagging and lifecycle calls. -/
def processReport (cfg : Config) (env : Env) (data : Json) :
    Except PyErr Unit × List Effect :=
  match data.getD "detail" (.obj []) with
  | .error e => (.error e, [])
  | .ok detail =>
    match severityOf detail with
    | .error e => (.error e, [])
    | .ok (severityScore, severityDesc) =>
      match detail.getD "resourcesAffected" (.obj []) with
      | .error e => (.error e, [])
      | .ok resourcesAffected =>
        if !resourcesAffected.truthy then
          (.ok (), [.metric "MissingResources"])
        else
          match affectedOf resourcesAffected with
          | .error e => (.error e, [])
          | .ok (affectedBucket, affectedKey, affectedVersion) =>
            if severityScore < cfg.scoreThreshold then
              (.ok (), [.metric "TaggingSkipped"])
            else
              let (tr, fxT) := tag_object cfg severityDesc affectedBucket
                affectedKey affectedVersion env.tagOutcome
              match tr with
              | .error e => (.error e, fxT)
              | .ok () =>
                let (lr, fxL) := lifecycle_config cfg affectedBucket
                  affectedKey env.lifecycleOutcome
                (lr, fxT ++ fxL)

/-- Embeds process_record: extract the report location, decode the key,
fetch the report, and on a truthy document run the severity pipeline;
a missing or falsy document counts EmptyObject and returns. -/
def process_record (cfg : Config) (env : Env) (record : Json) :
    Except PyErr Unit × List Effect :=
  match extractLocation record with
  | .error e => (.error e, [])
  | .ok (bucket, rawKey, version) =>
    match decodeKey rawKey with
    | .error e => (.error e, [])
    | .ok key =>
      let (data, fxFetch) := get_json_object bucket key version env.fetch
      match data with
      | none => (.ok (), fxFetch ++ [.metric "EmptyObject"])
      | some d =>
        if !d.truthy then (.ok (), fxFetch ++ [.metric "EmptyObject"])
        else
          let (r, fxRep) := processReport cfg env d
          (r, fxFetch ++ fxRep)

/-- Embeds Python iteration over the Records value: lists iterate their
elements, strings their characters, dicts their keys; other values are
not iterable. -/
def pyIter : Json → Except PyErr (List Json)
  | .arr xs => .ok xs
  | .str s => .ok (s.data.map fun c => .str (String.mk [c]))
  | .obj fs => .ok (fs.map fun kv => .str kv.1)
  | _ => .error .typeError

/-- Embeds the record loop of handler: records are processed in order,
each against its own environment, and the first uncaught exception stops
the loop and propagates. -/
def runRecords (cfg : Config) (envs : Nat → Env) (i : Nat) :
    List Json → Except PyErr Unit × List Effect
  | [] => (.ok (), [])
  | r :: rest =>
    let (res, fx) := process_record cfg (envs i) r
    match res with
    | .error e => (.error e, fx)
    | .ok () =>
      let (res2, fx2) := runRecords cfg envs (i + 1) rest
      (res2, fx ++ fx2)

/-- Embeds handler: records = event.get("Records", []) and the loop over
them. -/
def handler (cfg : Config) (envs : Nat → Env) (event : Json) :
    Except PyErr Unit × List Effect :=
  match event.getD "Records" (.arr []) with
  | .error e => (.error e, [])
  | .ok records =>
    match pyIter records with
    | .error e => (.error e, [])
    | .ok rs => runRecords cfg envs 0 rs

/-- Whether an effect is a put-object-tagging call. -/
def Effect.isTagPut : Effect → Bool
  | .tagPutCall .. => true
  | _ => false

/-- Whether an effect is a put-bucket-lifecycle call. -/
def Effect.isLifecyclePut : Effect → Bool
  | .lifecyclePutCall .. => true
  | _ => false

/-- Whether an effect is a put-bucket-notification call. -/
def Effect.isPutNotification : Effect → Bool
  | .putNotificationCall .. => true
  | _ => false

/-- Whether an effect is an emission of the named count metric. -/
def Effect.isMetric (n : String) : Effect → Bool
  | .metric m => m == n
  | _ => false

/-- Number of put-object-tagging calls in a trace. -/
def countTagPuts (fx : List Effect) : Nat := (fx.filter Effect.isTagPut).length

/-- Number of put-bucket-lifecycle calls in a trace. -/
def countLifecyclePuts (fx : List Effect) : Nat :=
  (fx.filter Effect.isLifecyclePut).length

/-- Number of put-bucket-notification calls in a trace. -/
def countPutNotifications (fx : List Effect) : Nat :=
  (fx.filter Effect.isPutNotification).length

/-- Number of emissions of the named metric in a trace. -/
def countMetric (n : String) (fx : List Effect) : Nat :=
  (fx.filter (Effect.isMetric n)).length

/-- An event-notification record pointing at a report location, shaped as
the inbound interface: s3.bucket.name, s3.object.key and an optional
s3.object.versionId. -/
def mkRecord (bn ks : String) (v : Option String) : Json :=
  .obj [("s3", .obj
    [("bucket", .obj [("name", .str bn)]),
     ("object", .obj ([("key", .str ks)] ++
       (match v with
        | some s => [("versionId", .str s)]
        | none => [])))])]

/-- A classification report with an integer severity score, a severity
description, and resourcesAffected naming the affected bucket, key and
optional version. -/
def mkReport (score : Int) (desc ab ak : String) (av : Option String) : Json :=
  .obj [("detail", .obj
    [("severity", .obj [("score", .num score), ("description", .str desc)]),
     ("resourcesAffected", .obj
       [("s3Bucket", .obj [("name", .str ab)]),
        ("s3Object", .obj ([("key", .str ak)] ++
          (match av with
           | some s => [("versionId", .str s)]
           | none => [])))])])]

namespace S3Events

/-- The three provisioning lifecycle verbs the crhelper dispatches on. -/
inductive RequestType where
  | Create : RequestType
  | Update : RequestType
  | Delete : RequestType
deriving Repr, DecidableEq

/-- Embeds put_bucket_notification: issues the put-bucket-notification
call; a ClientError is logged and re-raised, so every failure
propagates. -/
def put_bucket_notification (bucket : Json) (config : Json)
    (outcome : CallOutcome) : Except PyErr Unit × List Effect :=
  let call := Effect.putNotificationCall bucket config
  match outcome with
  | .ok => (.ok (), [call])
  | .clientError => (.error .clientError, [call])
  | .otherError => (.error .otherError, [call])

/-- Embeds the property checks of create: BucketName must be present and
truthy, then NotificationConfiguration (defaulting to an empty dict)
must be truthy; either failure raises a ValueError. -/
def createChecks (event : Json) : Except PyErr (Json × Json) :=
  match event.getD "ResourceProperties" (.obj []) with
  | .error e => .error e
  | .ok props =>
    match props.getOpt "BucketName" with
    | .error e => .error e
    | .ok none => .error .valueError
    | .ok (some bn) =>
      if !bn.truthy then .error .valueError
      else
        match props.getD "NotificationConfiguration" (.obj []) with
        | .error e => .error e
        | .ok config =>
          if !config.truthy then .error .valueError
          else .ok (bn, config)

/-- Embeds create (registered for both the Create and the Update verb):
after the checks, put the supplied configuration on the named bucket and
return the fixed physical resource id. -/
def create (event : Json) (outcome : CallOutcome) :
    Except PyErr String × List Effect :=
  match createChecks event with
  | .error e => (.error e, [])
  | .ok (bucketName, config) =>
    let (r, fx) := put_bucket_notification bucketName config outcome
    match r with
    | .error e => (.error e, fx)
    | .ok () => (.ok "ResultsNotifications", fx)

/-- Embeds the property check of delete: BucketName must be present and
truthy, else a ValueError is raised. -/
def deleteChecks (event : Json) : Except PyErr Json :=
  match event.getD "ResourceProperties" (.obj []) with
  | .error e => .error e
  | .ok props =>
    match props.getOpt "BucketName" with
    | .error e => .error e
    | .ok none => .error .valueError
    | .ok (some bn) =>
      if !bn.truthy then .error .valueError
      else .ok bn

/-- Embeds delete: after the check, put the empty configuration (the
mechanism that removes all notifications) on the named bucket. -/
def delete (event : Json) (outcome : CallOutcome) :
    Except PyErr Unit × List Effect :=
  match deleteChecks event with
  | .error e => (.error e, [])
  | .ok bucketName => put_bucket_notification bucketName (.obj []) outcome

/-- Embeds the crhelper verb dispatch set up by the decorators: Create
and Update both run create, Delete runs delete; the returned physical
resource id, when any, is the string create returns. -/
def dispatch (verb : RequestType) (event : Json) (outcome : CallOutcome) :
    Except PyErr (Option String) × List Effect :=
  match verb with
  | .Create | .Update =>
    let (r, fx) := create event outcome
    (r.map some, fx)
  | .Delete =>
    let (r, fx) := delete event outcome
    (r.map fun _ => none, fx)

end S3Events

/-- A truthy string key is decoded and an empty string key is kept, which
coincide because decoding the empty string is the empty string. -/
theorem decodeKey_str (s : String) :
    decodeKey (some (.str s)) = .ok (some (.str (unquote_plus s))) := by
  by_cases h : s = ""
  · subst h; rfl
  · simp [decodeKey, Json.truthy, h]

/-- Location extraction on a well-formed record envelope yields its
bucket name, raw key and optional version. -/
theorem extractLocation_mkRecord (bn ks : String) (rv : Option String) :
    extractLocation (mkRecord bn ks rv) =
      .ok (some (.str bn), some (.str ks), rv.map Json.str) := by
  cases rv <;> rfl

/-- Severity pipeline on a well-formed report at or above the threshold:
one tag call, its outcome metric unless the tag call raised a
non-ClientError, and one lifecycle call unless tagging raised. -/
theorem processReport_high (cfg : Config) (env : Env) (score : Int)
    (desc ab ak : String) (av : Option String)
    (hs : ¬ score < cfg.scoreThreshold) :
    processReport cfg env (mkReport score desc ab ak av) =
      (let tagCall := Effect.tagPutCall (.str ab) (.str ak)
        (inclVersion (av.map Json.str)) cfg.tagKeyName desc
       let lifeCall := Effect.lifecyclePutCall (.str ab) (.str ak)
        cfg.glacierTransitionDays cfg.expireObjectsDays
       match env.tagOutcome, env.lifecycleOutcome with
       | .ok, .otherError =>
         (.error .otherError, [tagCall, .metric "TaggingSuccess", lifeCall])
       | .ok, _ => (.ok (), [tagCall, .metric "TaggingSuccess", lifeCall])
       | .clientError, .otherError =>
         (.error .otherError, [tagCall, .metric "TaggingFailed", lifeCall])
       | .clientError, _ => (.ok (), [tagCall, .metric "TaggingFailed", lifeCall])
       | .otherError, _ => (.error .otherError, [tagCall])) := by
  cases htag : env.tagOutcome <;> cases hlife : env.lifecycleOutcome <;>
    cases av <;>
    simp [processReport, mkReport, severityOf, scoreOf, affectedOf,
      Json.getD, Json.getOpt, Json.getItem, Json.truthy, pyInt, pyStr,
      tag_object, lifecycle_config, List.lookup, hs, htag, hlife,
      bind, Except.bind, Functor.map, Except.map, pure, Except.pure]

/-- Severity pipeline on a well-formed report below the threshold: the
skip metric only. -/
theorem processReport_skip (cfg : Config) (env : Env) (score : Int)
    (desc ab ak : String) (av : Option String)
    (hs : score < cfg.scoreThreshold) :
    processReport cfg env (mkReport score desc ab ak av) =
      (.ok (), [.metric "TaggingSkipped"]) := by
  cases av <;>
    simp [processReport, mkReport, severityOf, scoreOf, affectedOf,
      Json.getD, Json.getOpt, Json.getItem, Json.truthy, pyInt,
      List.lookup, hs, bind, Except.bind, Functor.map, Except.map,
      pure, Except.pure]

/-- Processing a well-formed record whose fetch yields a truthy document
records the fetch call with the decoded key and then behaves as the
severity pipeline on the document. -/
theorem process_record_fetch_doc (cfg : Config) (env : Env) (bn ks : String)
    (rv : Option String) (doc : Json) (hFetch : env.fetch = .ok doc)
    (hT : doc.truthy = true) :
    process_record cfg env (mkRecord bn ks rv) =
      ((processReport cfg env doc).1,
        Effect.getObjectCall (some (.str bn)) (some (.str (unquote_plus ks)))
          (inclVersion (rv.map Json.str)) :: (processReport cfg env doc).2) := by
  simp [process_record, extractLocation_mkRecord, decodeKey_str,
    get_json_object, hFetch, hT]

/-- Processing any record whose fetch fails records the attempted fetch
call and the EmptyObject metric, and returns normally. -/
theorem process_record_fetch_err (cfg : Config) (env : Env) (record : Json)
    (bkt k v dk : Option Json)
    (hloc : extractLocation record = .ok (bkt, k, v))
    (hdk : decodeKey k = .ok dk)
    (hf : env.fetch = .error ()) :
    process_record cfg env record =
      (.ok (), [.getObjectCall bkt dk (inclVersion v), .metric "EmptyObject"]) := by
  simp [process_record, hloc, hdk, get_json_object, hf]

/-- A failing severity-score extraction makes the whole severity pipeline
fail with the same exception before any effect. -/
theorem processReport_scoreErr (cfg : Config) (env : Env) (data detail : Json)
    (e : PyErr) (hdet : data.getD "detail" (.obj []) = .ok detail)
    (hscore : scoreOf detail = .error e) :
    processReport cfg env data = (.error e, []) := by
  simp [processReport, hdet, severityOf, hscore, bind, Except.bind]

/-- Processing a record whose truthy fetched document has a failing
severity-score extraction propagates that exception with only the fetch
call in the trace. -/
theorem process_record_scoreErr (cfg : Config) (env : Env) (record : Json)
    (bkt k v dk : Option Json) (data detail : Json) (e : PyErr)
    (hloc : extractLocation record = .ok (bkt, k, v))
    (hdk : decodeKey k = .ok dk)
    (hf : env.fetch = .ok data) (hT : data.truthy = true)
    (hdet : data.getD "detail" (.obj []) = .ok detail)
    (hscore : scoreOf detail = .error e) :
    process_record cfg env record =
      (.error e, [.getObjectCall bkt dk (inclVersion v)]) := by
  simp [process_record, hloc, hdk, get_json_object, hf, hT,
    processReport_scoreErr cfg env data detail e hdet hscore]

/-- A fetched report with severity score 0 and no resourcesAffected:
low severity, yet the skip counter is not the one incremented. -/
def c1Report : Json := .obj [("detail", .obj
  [("severity", .obj [("score", Json.num 0), ("description", Json.str "Low")])])]

/-- Environment fetching the low-severity report without affected
resources, with all external calls succeeding. -/
def c1Env : Env :=
  { fetch := .ok c1Report, tagOutcome := .ok, lifecycleOutcome := .ok }

/-- C1 counterexample: a record whose fetched report has severity score
0, strictly below the default threshold 3, for which process_record does
not increment TaggingSkipped at all: the report has no resourcesAffected,
so the MissingResources branch returns before the threshold check.  The
claim that every such record increments TaggingSkipped exactly once is
therefore false. -/
theorem C1_counterexample :
    scoreOf (Json.obj [("severity", Json.obj
      [("score", Json.num 0), ("description", Json.str "Low")])]) = .ok 0 ∧
    (0 : Int) < defaultConfig.scoreThreshold ∧
    countMetric "TaggingSkipped"
      (process_record defaultConfig c1Env (mkRecord "bkt" "findings.json" none)).2 = 0 ∧
    countMetric "MissingResources"
      (process_record defaultConfig c1Env (mkRecord "bkt" "findings.json" none)).2 = 1 ∧
    (process_record defaultConfig c1Env (mkRecord "bkt" "findings.json" none)).1 = .ok () := by
  refine ⟨rfl, by decide, rfl, rfl, rfl⟩

/-- C1 (amended): for every record whose fetched report is a truthy
document with an integer severity score s strictly below the configured
threshold, a severity description, and a non-empty resourcesAffected
naming the affected bucket and key, process_record performs no tag-put
and no lifecycle-put call and increments TaggingSkipped exactly once. -/
theorem C1_thm (cfg : Config) (env : Env) (bn ks : String) (rv : Option String)
    (score : Int) (desc ab ak : String) (av : Option String)
    (hFetch : env.fetch = .ok (mkReport score desc ab ak av))
    (hs : score < cfg.scoreThreshold) :
    countTagPuts (process_record cfg env (mkRecord bn ks rv)).2 = 0 ∧
    countLifecyclePuts (process_record cfg env (mkRecord bn ks rv)).2 = 0 ∧
    countMetric "TaggingSkipped" (process_record cfg env (mkRecord bn ks rv)).2 = 1 ∧
    (process_record cfg env (mkRecord bn ks rv)).1 = .ok () := by
  have hT : (mkReport score desc ab ak av).truthy = true := by
    cases av <;> rfl
  rw [process_record_fetch_doc cfg env bn ks rv _ hFetch hT,
    processReport_skip cfg env score desc ab ak av hs]
  simp [countTagPuts, countLifecyclePuts, countMetric,
    Effect.isTagPut, Effect.isLifecyclePut, Effect.isMetric, List.filter]

/-- C1 witness: the amended statement at a concrete low-severity record. -/
theorem C1_thm_witness :
    countTagPuts (process_record defaultConfig
      { fetch := .ok (mkReport 1 "Low" "data" "secret.csv" none),
        tagOutcome := .ok, lifecycleOutcome := .ok }
      (mkRecord "b" "r.json" none)).2 = 0 ∧
    countLifecyclePuts (process_record defaultConfig
      { fetch := .ok (mkReport 1 "Low" "data" "secret.csv" none),
        tagOutcome := .ok, lifecycleOutcome := .ok }
      (mkRecord "b" "r.json" none)).2 = 0 ∧
    countMetric "TaggingSkipped" (process_record defaultConfig
      { fetch := .ok (mkReport 1 "Low" "data" "secret.csv" none),
        tagOutcome := .ok, lifecycleOutcome := .ok }
      (mkRecord "b" "r.json" none)).2 = 1 ∧
    (process_record defaultConfig
      { fetch := .ok (mkReport 1 "Low" "data" "secret.csv" none),
        tagOutcome := .ok, lifecycleOutcome := .ok }
      (mkRecord "b" "r.json" none)).1 = .ok () :=
  C1_thm defaultConfig
    { fetch := .ok (mkReport 1 "Low" "data" "secret.csv" none),
      tagOutcome := .ok, lifecycleOutcome := .ok }
    "b" "r.json" none 1 "Low" "data" "secret.csv" none rfl (by decide)

/-- Environment for the C2 counterexample: a high-severity report whose
tag-put call raises an exception that is not a ClientError. -/
def c2Env : Env :=
  { fetch := .ok (mkReport 5 "High" "datalake" "cards.csv" none),
    tagOutcome := .otherError, lifecycleOutcome := .ok }

/-- C2 counterexample: severity 5 is at or above the default threshold 3
and resourcesAffected is non-empty, yet when the tag-put call fails with
an exception other than a ClientError the lifecycle-put call never
happens, so the lifecycle-put does not occur regardless of whether the
external calls succeed, contrary to the claim. -/
theorem C2_counterexample :
    defaultConfig.scoreThreshold ≤ 5 ∧
    countTagPuts
      (process_record defaultConfig c2Env (mkRecord "rb" "rep.json" none)).2 = 1 ∧
    countLifecyclePuts
      (process_record defaultConfig c2Env (mkRecord "rb" "rep.json" none)).2 = 0 := by
  refine ⟨by decide, rfl, rfl⟩

/-- C2 (amended): for every record whose fetched report has severity
score at or above the threshold and resourcesAffected naming the
affected bucket, key and optional version, process_record issues exactly
one tag-put call whose value is the severity description and exactly one
lifecycle-put call whose rule prefix is the affected object key, both
scoped to the affected resource (never the fetch location), regardless
of the outcome of the lifecycle call and of whether the tag call
succeeds or fails with a service ClientError; a non-ClientError
exception from the tag call instead propagates before the lifecycle
call. -/
theorem C2_thm (cfg : Config) (env : Env) (bn ks : String) (rv : Option String)
    (score : Int) (desc ab ak : String) (av : Option String)
    (hFetch : env.fetch = .ok (mkReport score desc ab ak av))
    (hs : cfg.scoreThreshold ≤ score)
    (hTag : env.tagOutcome ≠ .otherError) :
    (process_record cfg env (mkRecord bn ks rv)).2.filter Effect.isTagPut =
      [.tagPutCall (.str ab) (.str ak) (inclVersion (av.map Json.str))
        cfg.tagKeyName desc] ∧
    (process_record cfg env (mkRecord bn ks rv)).2.filter Effect.isLifecyclePut =
      [.lifecyclePutCall (.str ab) (.str ak)
        cfg.glacierTransitionDays cfg.expireObjectsDays] := by
  have hT : (mkReport score desc ab ak av).truthy = true := by
    cases av <;> rfl
  have hs' : ¬ score < cfg.scoreThreshold := not_lt.mpr hs
  rw [process_record_fetch_doc cfg env bn ks rv _ hFetch hT,
    processReport_high cfg env score desc ab ak av hs']
  cases htag : env.tagOutcome <;> cases hlife : env.lifecycleOutcome <;>
    simp_all [Effect.isTagPut, Effect.isLifecyclePut, List.filter]

/-- C2 witness: the amended statement at a concrete high-severity record
whose tag call fails with a ClientError and whose lifecycle call also
fails: both calls are still issued exactly once with the affected
identifiers. -/
theorem C2_thm_witness :
    (process_record defaultConfig
      { fetch := .ok (mkReport 7 "High" "datalake" "pii.csv" (some "v7")),
        tagOutcome := .clientError, lifecycleOutcome := .clientError }
      (mkRecord "reports" "f%2Bx.json" none)).2.filter Effect.isTagPut =
      [.tagPutCall (.str "datalake") (.str "pii.csv")
        (inclVersion ((some "v7").map Json.str)) defaultConfig.tagKeyName "High"] ∧
    (process_record defaultConfig
      { fetch := .ok (mkReport 7 "High" "datalake" "pii.csv" (some "v7")),
        tagOutcome := .clientError, lifecycleOutcome := .clientError }
      (mkRecord "reports" "f%2Bx.json" none)).2.filter Effect.isLifecyclePut =
      [.lifecyclePutCall (.str "datalake") (.str "pii.csv")
        defaultConfig.glacierTransitionDays defaultConfig.expireObjectsDays] :=
  C2_thm defaultConfig
    { fetch := .ok (mkReport 7 "High" "datalake" "pii.csv" (some "v7")),
      tagOutcome := .clientError, lifecycleOutcome := .clientError }
    "reports" "f%2Bx.json" none 7 "High" "datalake" "pii.csv" (some "v7")
    rfl (by decide) (by decide)

/-- Environment for the C3 counterexample: the tag-put call raises an
exception that is not a botocore ClientError. -/
def c3Env : Env :=
  { fetch := .ok (mkReport 4 "Medium" "store" "ssn.txt" none),
    tagOutcome := .otherError, lifecycleOutcome := .ok }

/-- C3 counterexample: when the tag-put call raises an exception other
than a ClientError, the error does propagate out of process_record, no
failure counter is incremented and the lifecycle-put is never attempted,
so the claimed behaviour does not hold for every failure the external
API raises. -/
theorem C3_counterexample :
    (process_record defaultConfig c3Env (mkRecord "rb" "f.json" none)).1 =
      .error .otherError ∧
    countMetric "TaggingFailed"
      (process_record defaultConfig c3Env (mkRecord "rb" "f.json" none)).2 = 0 ∧
    countLifecyclePuts
      (process_record defaultConfig c3Env (mkRecord "rb" "f.json" none)).2 = 0 := by
  refine ⟨rfl, rfl, rfl⟩

/-- C3 (amended): when the tag-put call fails with a service ClientError
the error is not propagated, the TaggingFailed counter is incremented
and the lifecycle-put call is still attempted, the overall outcome being
exactly that of the lifecycle step; on tag-put success the
TaggingSuccess counter is incremented instead.  This holds for every
ClientError, while any other exception from the tag-put call
propagates. -/
theorem C3_thm (cfg : Config) (env : Env) (bn ks : String) (rv : Option String)
    (score : Int) (desc ab ak : String) (av : Option String)
    (hFetch : env.fetch = .ok (mkReport score desc ab ak av))
    (hs : cfg.scoreThreshold ≤ score) :
    (env.tagOutcome = .clientError →
      countMetric "TaggingFailed"
        (process_record cfg env (mkRecord bn ks rv)).2 = 1 ∧
      countLifecyclePuts (process_record cfg env (mkRecord bn ks rv)).2 = 1 ∧
      (process_record cfg env (mkRecord bn ks rv)).1 =
        (lifecycle_config cfg (.str ab) (.str ak) env.lifecycleOutcome).1) ∧
    (env.tagOutcome = .ok →
      countMetric "TaggingSuccess"
        (process_record cfg env (mkRecord bn ks rv)).2 = 1 ∧
      countLifecyclePuts (process_record cfg env (mkRecord bn ks rv)).2 = 1 ∧
      (process_record cfg env (mkRecord bn ks rv)).1 =
        (lifecycle_config cfg (.str ab) (.str ak) env.lifecycleOutcome).1) := by
  have hT : (mkReport score desc ab ak av).truthy = true := by
    cases av <;> rfl
  have hs' : ¬ score < cfg.scoreThreshold := not_lt.mpr hs
  rw [process_record_fetch_doc cfg env bn ks rv _ hFetch hT,
    processReport_high cfg env score desc ab ak av hs']
  cases htag : env.tagOutcome <;> cases hlife : env.lifecycleOutcome <;>
    simp_all [countMetric, countLifecyclePuts, Effect.isMetric,
      Effect.isLifecyclePut, List.filter, lifecycle_config]

/-- C3 witness: the amended statement at a concrete record whose tag
call fails with a ClientError while the lifecycle call succeeds. -/
theorem C3_thm_witness :
    (({ fetch := .ok (mkReport 9 "Critical" "store" "acct.csv" none),
        tagOutcome := .clientError, lifecycleOutcome := .ok } : Env).tagOutcome =
          .clientError →
      countMetric "TaggingFailed"
        (process_record defaultConfig
          { fetch := .ok (mkReport 9 "Critical" "store" "acct.csv" none),
            tagOutcome := .clientError, lifecycleOutcome := .ok }
          (mkRecord "rb" "g.json" none)).2 = 1 ∧
      countLifecyclePuts
        (process_record defaultConfig
          { fetch := .ok (mkReport 9 "Critical" "store" "acct.csv" none),
            tagOutcome := .clientError, lifecycleOutcome := .ok }
          (mkRecord "rb" "g.json" none)).2 = 1 ∧
      (process_record defaultConfig
          { fetch := .ok (mkReport 9 "Critical" "store" "acct.csv" none),
            tagOutcome := .clientError, lifecycleOutcome := .ok }
          (mkRecord "rb" "g.json" none)).1 =
        (lifecycle_config defaultConfig (.str "store") (.str "acct.csv")
          ({ fetch := .ok (mkReport 9 "Critical" "store" "acct.csv" none),
             tagOutcome := .clientError, lifecycleOutcome := .ok } : Env).lifecycleOutcome).1) ∧
    (({ fetch := .ok (mkReport 9 "Critical" "store" "acct.csv" none),
        tagOutcome := .clientError, lifecycleOutcome := .ok } : Env).tagOutcome = .ok →
      countMetric "TaggingSuccess"
        (process_record defaultConfig
          { fetch := .ok (mkReport 9 "Critical" "store" "acct.csv" none),
            tagOutcome := .clientError, lifecycleOutcome := .ok }
          (mkRecord "rb" "g.json" none)).2 = 1 ∧
      countLifecyclePuts
        (process_record defaultConfig
          { fetch := .ok (mkReport 9 "Critical" "store" "acct.csv" none),
            tagOutcome := .clientError, lifecycleOutcome := .ok }
          (mkRecord "rb" "g.json" none)).2 = 1 ∧
      (process_record defaultConfig
          { fetch := .ok (mkReport 9 "Critical" "store" "acct.csv" none),
            tagOutcome := .clientError, lifecycleOutcome := .ok }
          (mkRecord "rb" "g.json" none)).1 =
        (lifecycle_config defaultConfig (.str "store") (.str "acct.csv")
          ({ fetch := .ok (mkReport 9 "Critical" "store" "acct.csv" none),
             tagOutcome := .clientError, lifecycleOutcome := .ok } : Env).lifecycleOutcome).1) :=
  C3_thm defaultConfig
    { fetch := .ok (mkReport 9 "Critical" "store" "acct.csv" none),
      tagOutcome := .clientError, lifecycleOutcome := .ok }
    "rb" "g.json" none 9 "Critical" "store" "acct.csv" none rfl (by decide)

/-- C4: for every record whose location extraction and key decoding
succeed, if retrieving or parsing the classification report fails, no
exception propagates out of process_record, the EmptyObject counter is
incremented exactly once, and zero tag-put and zero lifecycle-put calls
occur. -/
theorem C4_thm (cfg : Config) (env : Env) (record : Json)
    (bkt k v dk : Option Json)
    (hloc : extractLocation record = .ok (bkt, k, v))
    (hdk : decodeKey k = .ok dk)
    (hf : env.fetch = .error ()) :
    (process_record cfg env record).1 = .ok () ∧
    countMetric "EmptyObject" (process_record cfg env record).2 = 1 ∧
    countTagPuts (process_record cfg env record).2 = 0 ∧
    countLifecyclePuts (process_record cfg env record).2 = 0 := by
  rw [process_record_fetch_err cfg env record bkt k v dk hloc hdk hf]
  simp [countMetric, countTagPuts, countLifecyclePuts, Effect.isMetric,
    Effect.isTagPut, Effect.isLifecyclePut, List.filter]

/-- C4 witness: a concrete record whose report fetch fails. -/
theorem C4_thm_witness :
    (process_record defaultConfig
      { fetch := .error (), tagOutcome := .ok, lifecycleOutcome := .ok }
      (mkRecord "b" "k.json" none)).1 = .ok () ∧
    countMetric "EmptyObject" (process_record defaultConfig
      { fetch := .error (), tagOutcome := .ok, lifecycleOutcome := .ok }
      (mkRecord "b" "k.json" none)).2 = 1 ∧
    countTagPuts (process_record defaultConfig
      { fetch := .error (), tagOutcome := .ok, lifecycleOutcome := .ok }
      (mkRecord "b" "k.json" none)).2 = 0 ∧
    countLifecyclePuts (process_record defaultConfig
      { fetch := .error (), tagOutcome := .ok, lifecycleOutcome := .ok }
      (mkRecord "b" "k.json" none)).2 = 0 :=
  C4_thm defaultConfig
    { fetch := .error (), tagOutcome := .ok, lifecycleOutcome := .ok }
    (mkRecord "b" "k.json" none)
    (some (.str "b")) (some (.str "k.json")) none (some (.str "k.json"))
    rfl rfl rfl

/-- C5: for every successfully fetched truthy report whose
detail.severity.score extraction fails (score absent or not coercible to
an integer), the exception is not caught: process_record returns it, and
a handler invocation whose first record is such a record stops with that
exception, producing no effects for any of the remaining records. -/
theorem C5_thm (cfg : Config) (env : Env) (envs : Nat → Env) (record : Json)
    (rest : List Json) (bkt k v dk : Option Json) (data detail : Json)
    (e : PyErr)
    (hloc : extractLocation record = .ok (bkt, k, v))
    (hdk : decodeKey k = .ok dk)
    (hf : env.fetch = .ok data) (hT : data.truthy = true)
    (hdet : data.getD "detail" (.obj []) = .ok detail)
    (hscore : scoreOf detail = .error e)
    (henv : envs 0 = env) :
    process_record cfg env record =
      (.error e, [.getObjectCall bkt dk (inclVersion v)]) ∧
    handler cfg envs (.obj [("Records", .arr (record :: rest))]) =
      (.error e, [.getObjectCall bkt dk (inclVersion v)]) := by
  have h1 := process_record_scoreErr cfg env record bkt k v dk data detail e
    hloc hdk hf hT hdet hscore
  refine ⟨h1, ?_⟩
  simp [handler, Json.getD, List.lookup, pyIter, runRecords, henv, h1]

/-- The C5 witness report: a truthy document whose detail.severity lacks
the score field. -/
def c5Data : Json := .obj [("detail", .obj
  [("severity", .obj [("description", Json.str "High")])])]

/-- Environment fetching the scoreless report, all calls succeeding. -/
def c5Env : Env := { fetch := .ok c5Data, tagOutcome := .ok, lifecycleOutcome := .ok }

/-- C5 witness: a two-record invocation whose first report lacks the
severity score aborts with the KeyError and the second record is never
processed. -/
theorem C5_thm_witness :
    process_record defaultConfig c5Env (mkRecord "b" "one.json" none) =
      (.error (.keyError "score"),
        [.getObjectCall (some (.str "b")) (some (.str "one.json")) none]) ∧
    handler defaultConfig (fun _ => c5Env)
      (.obj [("Records", .arr
        (mkRecord "b" "one.json" none :: [mkRecord "b2" "two.json" none]))]) =
      (.error (.keyError "score"),
        [.getObjectCall (some (.str "b")) (some (.str "one.json")) none]) :=
  C5_thm defaultConfig c5Env (fun _ => c5Env)
    (mkRecord "b" "one.json" none) [mkRecord "b2" "two.json" none]
    (some (.str "b")) (some (.str "one.json")) none (some (.str "one.json"))
    c5Data (.obj [("severity", .obj [("description", Json.str "High")])])
    (.keyError "score") rfl rfl rfl rfl rfl rfl rfl

/-- C6: the record object key is URL-decoded before the report fetch,
with the percent-escape %2B decoding to the plus character and a literal
plus decoding to a space; the decoded key appears only in the get-object
call, while every tag-put and lifecycle-put call in the trace is scoped
to the affected identifiers taken from the report. -/
theorem C6_thm (cfg : Config) (env : Env) (bn ks : String) (rv : Option String)
    (score : Int) (desc ab ak : String) (av : Option String)
    (hFetch : env.fetch = .ok (mkReport score desc ab ak av)) :
    (∀ cs : List Char,
      unquotePlusAux ('%' :: '2' :: 'B' :: cs) = '+' :: unquotePlusAux cs) ∧
    (∀ cs : List Char,
      unquotePlusAux ('+' :: cs) = ' ' :: unquotePlusAux cs) ∧
    (∃ rest, (process_record cfg env (mkRecord bn ks rv)).2 =
      .getObjectCall (some (.str bn)) (some (.str (unquote_plus ks)))
        (inclVersion (rv.map Json.str)) :: rest) ∧
    (∀ eff ∈ (process_record cfg env (mkRecord bn ks rv)).2,
      (eff.isTagPut = true →
        eff = .tagPutCall (.str ab) (.str ak) (inclVersion (av.map Json.str))
          cfg.tagKeyName desc) ∧
      (eff.isLifecyclePut = true →
        eff = .lifecyclePutCall (.str ab) (.str ak)
          cfg.glacierTransitionDays cfg.expireObjectsDays)) := by
  have hT : (mkReport score desc ab ak av).truthy = true := by
    cases av <;> rfl
  rw [process_record_fetch_doc cfg env bn ks rv _ hFetch hT]
  refine ⟨fun cs => rfl, fun cs => rfl, ⟨_, rfl⟩, ?_⟩
  by_cases hs : score < cfg.scoreThreshold
  · rw [processReport_skip cfg env score desc ab ak av hs]
    intro eff heff
    simp only [List.mem_cons, List.not_mem_nil, or_false] at heff
    rcases heff with h | h <;> subst h <;>
      exact ⟨by simp [Effect.isTagPut], by simp [Effect.isLifecyclePut]⟩
  · rw [processReport_high cfg env score desc ab ak av hs]
    cases htag : env.tagOutcome <;> cases hlife : env.lifecycleOutcome <;>
      (intro eff heff;
       simp only [List.mem_cons, List.not_mem_nil, or_false] at heff) <;>
      (rcases heff with h | h | h | h | h <;> try subst h) <;>
      exact ⟨by simp [Effect.isTagPut], by simp [Effect.isLifecyclePut]⟩

/-- Environment for the C6 witness: the example report of the spec. -/
def c6Env : Env :=
  { fetch := .ok (mkReport 5 "High" "data" "secret.csv" none),
    tagOutcome := .ok, lifecycleOutcome := .ok }

/-- C6 witness: the statement at the example scenario, key f%2Bx.json. -/
theorem C6_thm_witness :
    (∀ cs : List Char,
      unquotePlusAux ('%' :: '2' :: 'B' :: cs) = '+' :: unquotePlusAux cs) ∧
    (∀ cs : List Char,
      unquotePlusAux ('+' :: cs) = ' ' :: unquotePlusAux cs) ∧
    (∃ rest, (process_record defaultConfig c6Env
        (mkRecord "b" "f%2Bx.json" none)).2 =
      .getObjectCall (some (.str "b")) (some (.str (unquote_plus "f%2Bx.json")))
        (inclVersion (Option.map Json.str none)) :: rest) ∧
    (∀ eff ∈ (process_record defaultConfig c6Env
        (mkRecord "b" "f%2Bx.json" none)).2,
      (eff.isTagPut = true →
        eff = .tagPutCall (.str "data") (.str "secret.csv")
          (inclVersion (Option.map Json.str none)) defaultConfig.tagKeyName "High") ∧
      (eff.isLifecyclePut = true →
        eff = .lifecyclePutCall (.str "data") (.str "secret.csv")
          defaultConfig.glacierTransitionDays defaultConfig.expireObjectsDays)) :=
  C6_thm defaultConfig c6Env "b" "f%2Bx.json" none 5 "High" "data" "secret.csv"
    none rfl

/-- C7: the configurator raises a ValueError and issues no
put-notification call whenever BucketName is absent from the request
properties, for all three lifecycle verbs; for Create and Update it
additionally raises, again without any call, when the
NotificationConfiguration document is absent or empty. -/
theorem C7_thm (props : List (String × Json)) (outcome : CallOutcome) :
    (∀ verb : S3Events.RequestType, props.lookup "BucketName" = none →
      S3Events.dispatch verb (.obj [("ResourceProperties", .obj props)]) outcome =
        (.error .valueError, [])) ∧
    (∀ verb : S3Events.RequestType, verb ≠ .Delete → ∀ bn : Json,
      props.lookup "BucketName" = some bn → bn.truthy = true →
      (props.lookup "NotificationConfiguration" = none ∨
        (∃ c, props.lookup "NotificationConfiguration" = some c ∧
          c.truthy = false)) →
      S3Events.dispatch verb (.obj [("ResourceProperties", .obj props)]) outcome =
        (.error .valueError, [])) := by
  constructor
  · intro verb h
    cases verb <;>
      simp [S3Events.dispatch, S3Events.create, S3Events.createChecks,
        S3Events.delete, S3Events.deleteChecks, Json.getD, Json.getOpt,
        List.lookup, h, Except.map]
  · intro verb hv bn hbn hbnT hcfg
    have proof1 : ∀ c, props.lookup "NotificationConfiguration" = some c →
        c.truthy = false →
        S3Events.createChecks (.obj [("ResourceProperties", .obj props)]) =
          .error .valueError := by
      intro c hc hcT
      simp [S3Events.createChecks, Json.getD, Json.getOpt, hbn, hbnT, hc, hcT]
    have proof0 : props.lookup "NotificationConfiguration" = none →
        S3Events.createChecks (.obj [("ResourceProperties", .obj props)]) =
          .error .valueError := by
      intro hc
      simp [S3Events.createChecks, Json.getD, Json.getOpt, Json.truthy,
        hbn, hbnT, hc]
    have hchk : S3Events.createChecks
        (.obj [("ResourceProperties", .obj props)]) = .error .valueError := by
      rcases hcfg with hc | ⟨c, hc, hcT⟩
      · exact proof0 hc
      · exact proof1 c hc hcT
    cases verb with
    | Delete => exact absurd rfl hv
    | Create => simp [S3Events.dispatch, S3Events.create, hchk, Except.map]
    | Update => simp [S3Events.dispatch, S3Events.create, hchk, Except.map]

/-- C7 witness: the statement at empty request properties for the first
part and at properties with a bucket but an empty configuration for the
second, on the Create verb. -/
theorem C7_thm_witness :
    ((∀ verb : S3Events.RequestType,
      List.lookup "BucketName" ([] : List (String × Json)) = none →
      S3Events.dispatch verb (.obj [("ResourceProperties", .obj [])]) .ok =
        (.error .valueError, [])) ∧
    (∀ verb : S3Events.RequestType, verb ≠ .Delete → ∀ bn : Json,
      List.lookup "BucketName" ([] : List (String × Json)) = some bn →
      bn.truthy = true →
      (List.lookup "NotificationConfiguration" ([] : List (String × Json)) = none ∨
        (∃ c, List.lookup "NotificationConfiguration"
            ([] : List (String × Json)) = some c ∧ c.truthy = false)) →
      S3Events.dispatch verb (.obj [("ResourceProperties", .obj [])]) .ok =
        (.error .valueError, []))) ∧
    S3Events.dispatch .Create
      (.obj [("ResourceProperties", .obj
        [("BucketName", Json.str "b"),
         ("NotificationConfiguration", Json.obj [])])]) .ok =
      (.error .valueError, []) :=
  ⟨C7_thm [] .ok,
   (C7_thm [("BucketName", Json.str "b"),
            ("NotificationConfiguration", Json.obj [])] .ok).2
     .Create (by decide) (Json.str "b") rfl rfl
     (Or.inr ⟨Json.obj [], rfl, rfl⟩)⟩

/-- C8: with a present truthy BucketName, a Create or Update request
with a non-empty NotificationConfiguration issues exactly one
put-notification call carrying exactly that document and, on success,
reports the fixed physical resource id ResultsNotifications; a Delete
request issues exactly one put-notification call carrying the empty
configuration regardless of any configuration supplied in the
request. -/
theorem C8_thm (props : List (String × Json)) (outcome : CallOutcome)
    (bn c : Json)
    (hbn : props.lookup "BucketName" = some bn) (hbnT : bn.truthy = true)
    (hc : props.lookup "NotificationConfiguration" = some c)
    (hcT : c.truthy = true) :
    (∀ verb : S3Events.RequestType, verb ≠ .Delete →
      (S3Events.dispatch verb
        (.obj [("ResourceProperties", .obj props)]) outcome).2 =
        [Effect.putNotificationCall bn c] ∧
      (outcome = .ok →
        S3Events.dispatch verb
          (.obj [("ResourceProperties", .obj props)]) outcome =
          (.ok (some "ResultsNotifications"),
            [Effect.putNotificationCall bn c]))) ∧
    (∀ (props2 : List (String × Json)) (bn2 : Json),
      props2.lookup "BucketName" = some bn2 → bn2.truthy = true →
      (S3Events.dispatch .Delete
        (.obj [("ResourceProperties", .obj props2)]) outcome).2 =
        [Effect.putNotificationCall bn2 (.obj [])] ∧
      (outcome = .ok →
        S3Events.dispatch .Delete
          (.obj [("ResourceProperties", .obj props2)]) outcome =
          (.ok none, [Effect.putNotificationCall bn2 (.obj [])]))) := by
  constructor
  · intro verb hv
    cases verb with
    | Delete => exact absurd rfl hv
    | Create | Update =>
      cases outcome <;>
        simp [S3Events.dispatch, S3Events.create, S3Events.createChecks,
          S3Events.put_bucket_notification, Json.getD, Json.getOpt,
          hbn, hbnT, hc, hcT, Except.map]
  · intro props2 bn2 hbn2 hbn2T
    cases outcome <;>
      simp [S3Events.dispatch, S3Events.delete, S3Events.deleteChecks,
        S3Events.put_bucket_notification, Json.getD, Json.getOpt,
        hbn2, hbn2T, Except.map]

/-- C8 witness: concrete Create and Delete requests on bucket b with a
one-entry configuration document. -/
theorem C8_thm_witness :
    ((∀ verb : S3Events.RequestType, verb ≠ .Delete →
      (S3Events.dispatch verb
        (.obj [("ResourceProperties", .obj
          [("BucketName", Json.str "b"),
           ("NotificationConfiguration",
             Json.obj [("EventBridgeConfiguration", Json.obj [])])])]) .ok).2 =
        [Effect.putNotificationCall (Json.str "b")
          (Json.obj [("EventBridgeConfiguration", Json.obj [])])] ∧
      (CallOutcome.ok = .ok →
        S3Events.dispatch verb
          (.obj [("ResourceProperties", .obj
            [("BucketName", Json.str "b"),
             ("NotificationConfiguration",
               Json.obj [("EventBridgeConfiguration", Json.obj [])])])]) .ok =
          (.ok (some "ResultsNotifications"),
            [Effect.putNotificationCall (Json.str "b")
              (Json.obj [("EventBridgeConfiguration", Json.obj [])])]))) ∧
    (∀ (props2 : List (String × Json)) (bn2 : Json),
      props2.lookup "BucketName" = some bn2 → bn2.truthy = true →
      (S3Events.dispatch .Delete
        (.obj [("ResourceProperties", .obj props2)]) .ok).2 =
        [Effect.putNotificationCall bn2 (.obj [])] ∧
      (CallOutcome.ok = .ok →
        S3Events.dispatch .Delete
          (.obj [("ResourceProperties", .obj props2)]) .ok =
          (.ok none, [Effect.putNotificationCall bn2 (.obj [])])))) ∧
    (S3Events.dispatch .Delete
      (.obj [("ResourceProperties", .obj
        [("BucketName", Json.str "b"),
         ("NotificationConfiguration",
           Json.obj [("EventBridgeConfiguration", Json.obj [])])])]) .ok).2 =
      [Effect.putNotificationCall (Json.str "b") (.obj [])] :=
  ⟨C8_thm
    [("BucketName", Json.str "b"),
     ("NotificationConfiguration", Json.obj [("EventBridgeConfiguration", Json.obj [])])]
    .ok (Json.str "b") (Json.obj [("EventBridgeConfiguration", Json.obj [])])
    rfl rfl rfl rfl,
   ((C8_thm
    [("BucketName", Json.str "b"),
     ("NotificationConfiguration", Json.obj [("EventBridgeConfiguration", Json.obj [])])]
    .ok (Json.str "b") (Json.obj [("EventBridgeConfiguration", Json.obj [])])
    rfl rfl rfl rfl).2
    [("BucketName", Json.str "b"),
     ("NotificationConfiguration", Json.obj [("EventBridgeConfiguration", Json.obj [])])]
    (Json.str "b") rfl rfl).1⟩

/-- C9: a record envelope lacking the expected s3 bucket or object
fields does not raise a KeyError: the location extraction yields missing
identifiers, the fetch is still attempted with them, its failure is
swallowed, and the record ends on the EmptyObject path with no tag-put
and no lifecycle-put call. -/
theorem C9_thm (cfg : Config) (env : Env) (record : Json)
    (bkt k v dk : Option Json)
    (hloc : extractLocation record = .ok (bkt, k, v))
    (_hmiss : bkt = none ∨ k = none)
    (hdk : decodeKey k = .ok dk)
    (hf : env.fetch = .error ()) :
    process_record cfg env record =
      (.ok (), [.getObjectCall bkt dk (inclVersion v), .metric "EmptyObject"]) ∧
    countMetric "EmptyObject" (process_record cfg env record).2 = 1 ∧
    countTagPuts (process_record cfg env record).2 = 0 ∧
    countLifecyclePuts (process_record cfg env record).2 = 0 := by
  have h1 := process_record_fetch_err cfg env record bkt k v dk hloc hdk hf
  rw [h1]
  exact ⟨rfl, rfl, rfl, rfl⟩

/-- C9 witness: the empty-dict record, whose every envelope field is
missing, fetched with both identifiers equal to None. -/
theorem C9_thm_witness :
    process_record defaultConfig
      { fetch := .error (), tagOutcome := .ok, lifecycleOutcome := .ok }
      (.obj []) =
      (.ok (), [.getObjectCall none none (inclVersion none),
        .metric "EmptyObject"]) ∧
    countMetric "EmptyObject" (process_record defaultConfig
      { fetch := .error (), tagOutcome := .ok, lifecycleOutcome := .ok }
      (.obj [])).2 = 1 ∧
    countTagPuts (process_record defaultConfig
      { fetch := .error (), tagOutcome := .ok, lifecycleOutcome := .ok }
      (.obj [])).2 = 0 ∧
    countLifecyclePuts (process_record defaultConfig
      { fetch := .error (), tagOutcome := .ok, lifecycleOutcome := .ok }
      (.obj [])).2 = 0 :=
  C9_thm defaultConfig
    { fetch := .error (), tagOutcome := .ok, lifecycleOutcome := .ok }
    (.obj []) none none none none rfl (Or.inl rfl) rfl rfl

/-- C10: the severity score is extracted before the resourcesAffected
check, so a truthy fetched report whose detail.severity.score extraction
fails makes process_record raise even when resourcesAffected is absent
or empty, and the MissingResources counter is never incremented for such
a report. -/
theorem C10_thm (cfg : Config) (env : Env) (record : Json)
    (bkt k v dk : Option Json) (data detail : Json) (e : PyErr)
    (hloc : extractLocation record = .ok (bkt, k, v))
    (hdk : decodeKey k = .ok dk)
    (hf : env.fetch = .ok data) (hT : data.truthy = true)
    (hdet : data.getD "detail" (.obj []) = .ok detail)
    (hscore : scoreOf detail = .error e) :
    process_record cfg env record =
      (.error e, [.getObjectCall bkt dk (inclVersion v)]) ∧
    countMetric "MissingResources" (process_record cfg env record).2 = 0 := by
  have h1 := process_record_scoreErr cfg env record bkt k v dk data detail e
    hloc hdk hf hT hdet hscore
  rw [h1]
  exact ⟨rfl, rfl⟩

/-- C10 witness: a report whose detail has neither severity nor
resourcesAffected raises the severity KeyError and MissingResources is
not incremented. -/
theorem C10_thm_witness :
    process_record defaultConfig
      { fetch := .ok (.obj [("detail", .obj [("id", Json.str "f1")])]),
        tagOutcome := .ok, lifecycleOutcome := .ok }
      (mkRecord "rb" "r10.json" none) =
      (.error (.keyError "severity"),
        [.getObjectCall (some (.str "rb")) (some (.str "r10.json")) none]) ∧
    countMetric "MissingResources" (process_record defaultConfig
      { fetch := .ok (.obj [("detail", .obj [("id", Json.str "f1")])]),
        tagOutcome := .ok, lifecycleOutcome := .ok }
      (mkRecord "rb" "r10.json" none)).2 = 0 :=
  C10_thm defaultConfig
    { fetch := .ok (.obj [("detail", .obj [("id", Json.str "f1")])]),
      tagOutcome := .ok, lifecycleOutcome := .ok }
    (mkRecord "rb" "r10.json" none)
    (some (.str "rb")) (some (.str "r10.json")) none (some (.str "r10.json"))
    (.obj [("detail", .obj [("id", Json.str "f1")])])
    (.obj [("id", Json.str "f1")])
    (.keyError "severity") rfl rfl rfl rfl rfl rfl
